import Mathlib

/-!
Verification development for the Azure credentials setup script
(`scripts/setup-azure-credentials.py`).

The script shells out to the `az` CLI; we embed it shallowly:

* Python strings are Lean `String`s; the Python string operations the script
  uses (`str.strip`, slicing `[:8]` and `[-6:]`, `str.replace(c, "")`) are
  defined below over the underlying character list, faithful to Python's
  sequence semantics.
* Every external effect (a CLI invocation's exit code / stdout, the wall
  clock, file existence) is a parameter: the functions take oracles
  describing the outside world and return the value the Python function
  returns together with the observable effects it performs (command vectors
  issued, files written, warnings printed where a property refers to them).
* `sys.exit(1)` is modelled as a distinguished outcome value.
* Command vectors are the literal argument lists built in the source.
-/

/-- Python `str.strip()` (no argument): remove leading and trailing
whitespace characters. -/
def pyStrip (s : String) : String :=
  String.mk (((s.data.dropWhile Char.isWhitespace).reverse.dropWhile
    Char.isWhitespace).reverse)

/-- Python slicing `s[:n]` for `n ≥ 0`: the first `n` characters (all of
`s` when it is shorter). -/
def pyTake (s : String) (n : Nat) : String :=
  String.mk (s.data.take n)

/-- Python slicing `s[-n:]` for `n > 0`: the last `n` characters (all of
`s` when it is shorter). -/
def pyTakeRight (s : String) (n : Nat) : String :=
  String.mk (s.data.drop (s.data.length - n))

/-- Python `s.replace(c, "")` for a one-character pattern `c`: delete every
occurrence of the character. -/
def removeChar (c : Char) (s : String) : String :=
  String.mk (s.data.filter (fun x => x ≠ c))

/-! ## Command runner (`run_command`, lines 146–176) -/

/-- The outcome of one external process: what `subprocess.run` captures.
Field names follow `subprocess.CompletedProcess`. -/
structure Completed where
  returncode : Nat
  stdout : String
  stderr : String
deriving DecidableEq

/-- Result of `run_command`: either the completed process handed back to the
caller, or a `sys.exit` with the given code after printing the given error
messages. -/
inductive CmdResult where
  | ok (r : Completed)
  | exited (code : Nat) (errors : List String)
deriving DecidableEq

/-- Model of `run_command(command, check)` given the process outcome `r`:
`subprocess.run(..., check=True)` raises `CalledProcessError` exactly when
the exit code is non-zero; the handler prints the failing command and its
captured stderr and calls `sys.exit(1)`.  With `check=False` the completed
process is returned as-is, whatever its exit code. -/
def run_command (command : List String) (check : Bool) (r : Completed) : CmdResult :=
  if check ∧ r.returncode ≠ 0 then
    .exited 1 ["Command failed: " ++ String.intercalate " " command,
               "Error: " ++ r.stderr]
  else
    .ok r

/-! ## Provider registration (`check_and_register_providers`, lines 202–303) -/

/-- The fixed provider list of lines 206–217. -/
def requiredProviders : List String :=
  ["Microsoft.ContainerService",
   "Microsoft.ContainerRegistry",
   "Microsoft.ContainerInstance",
   "Microsoft.Network",
   "Microsoft.Compute",
   "Microsoft.Storage",
   "Microsoft.KeyVault",
   "Microsoft.Authorization",
   "Microsoft.Resources",
   "Microsoft.ManagedIdentity"]

/-- Command `az provider show --namespace p --query registrationState
--output tsv` (lines 222–235). -/
def providerShowCmd (p : String) : List String :=
  ["az", "provider", "show", "--namespace", p,
   "--query", "registrationState", "--output", "tsv"]

/-- Command `az provider register --namespace p` (line 255). -/
def providerRegisterCmd (p : String) : List String :=
  ["az", "provider", "register", "--namespace", p]

/-- A provider-state query oracle: `none` models a non-zero exit of the
`az provider show` call, `some out` a zero exit with stdout `out`. -/
abbrev ShowOracle := String → Option String

/-- The first loop of `check_and_register_providers` (lines 219–246):
a provider lands in `unregistered_providers` when its state query either
fails (conservative default) or reports a state other than `Registered`
after stripping.  Order of `requiredProviders` is preserved. -/
def classifyUnregistered (showState : ShowOracle) : List String :=
  requiredProviders.filter fun p =>
    match showState p with
    | some out => pyStrip out != "Registered"
    | none => true

/-- The registration loop of lines 252–262: register each unregistered
provider in order; a non-zero exit of a register call prints an error and
`sys.exit(1)` immediately, so later providers are not registered.  Returns
the register command vectors actually issued and whether all succeeded. -/
def registerPhase (registerOk : String → Bool) : List String → List (List String) × Bool
  | [] => ([], true)
  | p :: rest =>
    if registerOk p then
      let r := registerPhase registerOk rest
      (providerRegisterCmd p :: r.1, r.2)
    else
      ([providerRegisterCmd p], false)

/-- The inner check of the polling loop (lines 270–289): all pending
providers report `Registered` (a query failure counts as not registered). -/
def allRegisteredAt (pollState : Nat → ShowOracle) (pending : List String)
    (k : Nat) : Bool :=
  pending.all fun p =>
    match pollState k p with
    | some out => pyStrip out == "Registered"
    | none => false

/-- The polling loop of lines 266–301, one step per body execution.
`max_wait_time = 300`; each body execution that does not break sleeps 10
seconds, and the `az` calls themselves are modelled as instantaneous, so at
the start of the `k`-th body execution `time.time() - start_time = 10 * k`.
The loop guard is `10 * k < 300`.  The result is the number of body
executions together with `true` when the loop left via `break` (all
registered) and `false` when the guard expired (the `while`'s `else` arm:
warn and fall through).  The `fuel` argument only makes the recursion
structural; it is always called with fuel 31, which the guard exhausts
first (the guard fails no later than `k = 30`). -/
def pollIter (allReg : Nat → Bool) : Nat → Nat → Nat × Bool
  | 0, k => (k, false)
  | fuel + 1, k =>
    if 10 * k < 300 then
      if allReg k then (k + 1, true)
      else pollIter allReg fuel (k + 1)
    else
      (k, false)

/-- The polling loop started as in the source: counter 0, full fuel. -/
def pollLoop (allReg : Nat → Bool) : Nat × Bool :=
  pollIter allReg 31 0

/-- How `check_and_register_providers` can finish. -/
inductive ProvOutcome where
  /-- the list `unregistered_providers` was empty: success message, no registration,
  no polling (lines 302–303). -/
  | allAlreadyRegistered
  /-- the polling loop left via `break`: all providers registered. -/
  | allRegistered
  /-- the 300-second budget expired: warning printed, normal return
  (lines 297–301). -/
  | timedOut
  /-- a register call failed: `sys.exit(code)` (line 262). -/
  | fatalExit (code : Nat)
deriving DecidableEq

/-- Observable behaviour of one `check_and_register_providers` call. -/
structure ProvRun where
  /-- the `unregistered_providers` list after the first loop. -/
  unregistered : List String
  /-- the `az provider register` command vectors issued. -/
  registerCmds : List (List String)
  /-- number of body executions of the polling `while` loop. -/
  pollIterations : Nat
  outcome : ProvOutcome
  /-- warnings printed (modelled where a claim refers to them). -/
  warnings : List String
deriving DecidableEq

/-- The timeout warning of line 298. -/
def timeoutWarning : String := "Provider registration is taking longer than expected"

/-- Model of `check_and_register_providers` (lines 202–303) against oracles for the
initial state queries, the register calls, and the polling-time state
queries.  Warnings for failed initial queries (line 245) are also
recorded. -/
def check_and_register_providers (showState : ShowOracle)
    (registerOk : String → Bool) (pollState : Nat → ShowOracle) : ProvRun :=
  let checkWarnings :=
    (requiredProviders.filter fun p => (showState p).isNone).map
      (fun p => "Could not check provider " ++ p)
  let unreg := classifyUnregistered showState
  if unreg.isEmpty then
    { unregistered := unreg, registerCmds := [], pollIterations := 0,
      outcome := .allAlreadyRegistered, warnings := checkWarnings }
  else
    let reg := registerPhase registerOk unreg
    if reg.2 then
      let poll := pollLoop (allRegisteredAt pollState unreg)
      if poll.2 then
        { unregistered := unreg, registerCmds := reg.1,
          pollIterations := poll.1, outcome := .allRegistered,
          warnings := checkWarnings }
      else
        { unregistered := unreg, registerCmds := reg.1,
          pollIterations := poll.1, outcome := .timedOut,
          warnings := checkWarnings ++ [timeoutWarning] }
    else
      { unregistered := unreg, registerCmds := reg.1, pollIterations := 0,
        outcome := .fatalExit 1, warnings := checkWarnings }

/-! ## Resource group (`create_state_resource_group`, lines 327–354) -/

/-- Name `rg_name = f"\x7bproject_name\x7d-terraform-state-rg"` (line 331). -/
def rgName (project : String) : String := project ++ "-terraform-state-rg"

/-- The `az group create` command vector of lines 338–351. -/
def rgCreateCmd (rg_name location project : String) : List String :=
  ["az", "group", "create", "--name", rg_name, "--location", location,
   "--tags", "Purpose=TerraformState", "Project=" ++ project]

/-- Observable behaviour of one `create_state_resource_group` call. -/
structure RGRun where
  /-- the returned resource-group name. -/
  name : String
  /-- the `az group create` command vectors issued ([] when skipped). -/
  createCmds : List (List String)
deriving DecidableEq

/-- Model of `create_state_resource_group(project_name, location)` given the exit
code of the `az group show` existence check: on exit 0 the group exists,
a warning is printed and creation is skipped; otherwise the group is
created.  Both branches return `rg_name`. -/
def create_state_resource_group (project location : String)
    (showExit : Nat) : RGRun :=
  let rg_name := rgName project
  if showExit = 0 then
    { name := rg_name, createCmds := [] }
  else
    { name := rg_name, createCmds := [rgCreateCmd rg_name location project] }

/-! ## Storage accounts (`create_storage_accounts`, lines 357–423) -/

/-- Computation `short_project = project_name.replace("-", "").replace("_", "")[:8]`
(lines 369–371). -/
def shortProject (project : String) : String :=
  pyTake (removeChar '_' (removeChar '-' project)) 8

/-- Computation `timestamp = str(int(time.time()))[-6:]` (line 364): the last six
digits of the integral epoch time `t`. -/
def timestampSuffix (t : Nat) : String := pyTakeRight (toString t) 6

/-- Name `storage_name = f"\x7bshort_project\x7dtf\x7benv\x7d\x7btimestamp\x7d"` (line 372). -/
def storageAccountName (project env : String) (t : Nat) : String :=
  shortProject project ++ "tf" ++ env ++ timestampSuffix t

/-- The `az storage account create` command vector of lines 377–402. -/
def storageCreateCmd (storage_name rg_name location env project : String) :
    List String :=
  ["az", "storage", "account", "create", "--name", storage_name,
   "--resource-group", rg_name, "--location", location,
   "--sku", "Standard_LRS", "--encryption-services", "blob",
   "--https-only", "true", "--min-tls-version", "TLS1_2",
   "--tags", "Environment=" ++ env, "Purpose=TerraformState",
   "Project=" ++ project]

/-- The `az storage container create` command vector of lines 405–418. -/
def containerCreateCmd (storage_name : String) : List String :=
  ["az", "storage", "container", "create", "--name", "tfstate",
   "--account-name", storage_name, "--auth-mode", "login"]

/-- Model of `create_storage_accounts` (lines 357–423): for each environment, in
order, create the storage account then the `tfstate` container (both with
`check=True`; no existence check).  Returns the `storage_accounts`
dictionary (insertion-ordered association list `env ↦ name`) and the
command vectors issued. -/
def create_storage_accounts (project rg_name location : String) (t : Nat) :
    List String → List (String × String) × List (List String)
  | [] => ([], [])
  | env :: rest =>
    let name := storageAccountName project env t
    let r := create_storage_accounts project rg_name location t rest
    ((env, name) :: r.1,
     storageCreateCmd name rg_name location env project
       :: containerCreateCmd name :: r.2)

/-! ## Service principals (`create_service_principal`, lines 426–505) -/

/-- The `az ad sp list` lookup command vector of lines 435–449. -/
def spListCmd (sp_name : String) : List String :=
  ["az", "ad", "sp", "list", "--display-name", sp_name,
   "--query", "[0].appId", "--output", "tsv"]

/-- The `az ad sp create-for-rbac` command vector of lines 457–471. -/
def spCreateCmd (sp_name subscription_id : String) : List String :=
  ["az", "ad", "sp", "create-for-rbac", "--name", sp_name,
   "--role", "Contributor",
   "--scopes", "/subscriptions/" ++ subscription_id, "--sdk-auth"]

/-- The `az role assignment create` command vector of lines 485–499. -/
def roleAssignCmd (app_id role subscription_id : String) : List String :=
  ["az", "role", "assignment", "create", "--assignee", app_id,
   "--role", role, "--scope", "/subscriptions/" ++ subscription_id]

/-- Observable behaviour of one `create_service_principal` call. -/
structure SPResult where
  /-- the name `sp_name = f"\x7bproject_name\x7d-\x7bsp_type\x7d-sp"` (line 430). -/
  sp_name : String
  /-- the returned Python dict, as an insertion-ordered key/value list. -/
  fields : List (String × String)
  /-- the `az ad sp create-for-rbac` command vectors issued. -/
  createCmds : List (List String)
  /-- the `az role assignment create` command vectors issued. -/
  roleCmds : List (List String)
deriving DecidableEq

/-- Model of `create_service_principal(project_name, subscription_id, sp_type)`
(lines 426–505).  `spLookup` gives the stdout of the `az ad sp list`
lookup for a display name (the call runs with `check=False`, so a failure
is just empty stdout); `spCreated` gives, for a display name, the
`clientId`, `clientSecret` and raw `--sdk-auth` JSON produced by a fresh
`create-for-rbac` call.  When the stripped lookup output is non-empty the
function warns and returns only `{"app_id": ...}`; otherwise it creates
the principal, assigns the two supplementary roles with `check=False`,
and returns app id, secret and raw output. -/
def create_service_principal (project sp_type subscription_id : String)
    (spLookup : String → String)
    (spCreated : String → String × String × String) : SPResult :=
  let sp_name := project ++ "-" ++ sp_type ++ "-sp"
  let lookupOut := pyStrip (spLookup sp_name)
  if lookupOut ≠ "" then
    { sp_name := sp_name, fields := [("app_id", lookupOut)],
      createCmds := [], roleCmds := [] }
  else
    let made := spCreated sp_name
    { sp_name := sp_name,
      fields := [("app_id", made.1), ("client_secret", made.2.1),
                 ("sp_output", made.2.2)],
      createCmds := [spCreateCmd sp_name subscription_id],
      roleCmds := [roleAssignCmd made.1 "User Access Administrator" subscription_id,
                   roleAssignCmd made.1 "Key Vault Administrator" subscription_id] }

/-! ## File generation (lines 508–596); only the written paths are
modelled, file contents being plain string interpolation. -/

/-- Function `generate_env_file` (lines 508–536) writes exactly the file `.env`. -/
def generate_env_file_paths : List String := [".env"]

/-- Function `generate_backend_configs` (lines 539–561) writes
`terraform/environments/{env}/backend.conf` for each environment. -/
def generate_backend_configs_paths (environments : List String) : List String :=
  environments.map fun env => "terraform/environments/" ++ env ++ "/backend.conf"

/-- Function `generate_terraform_tfvars` (lines 564–596) writes
`terraform/environments/{env}/terraform.tfvars` exactly when the example
file exists and the tfvars file does not. -/
def generate_terraform_tfvars_paths (exampleExists tfvarsExists : String → Bool)
    (environments : List String) : List String :=
  environments.filterMap fun env =>
    if exampleExists env && !tfvarsExists env then
      some ("terraform/environments/" ++ env ++ "/terraform.tfvars")
    else none

/-! ## The provisioning run (`main`, lines 599–706) -/

/-- The state of the outside world that one provisioning run observes:
one field per kind of external query the script makes. -/
structure World where
  /-- outcome of the initial `az provider show` per namespace. -/
  providerShow : ShowOracle
  /-- success of `az provider register` per namespace. -/
  registerOk : String → Bool
  /-- outcome of `az provider show` per polling iteration and namespace. -/
  pollShow : Nat → ShowOracle
  /-- exit code of `az group show` for the state resource group. -/
  rgShowExit : Nat
  /-- stdout of the `az ad sp list` lookup per display name. -/
  spLookup : String → String
  /-- the `clientId`, `clientSecret`, raw output of a fresh
  `create-for-rbac` per display name. -/
  spCreated : String → String × String × String
  /-- the `id` of `az account show`. -/
  subscription_id : String
  /-- the `tenantId` of `az account show`. -/
  tenant_id : String
  /-- the value `int(time.time())` when `create_storage_accounts` runs. -/
  epochTime : Nat
  /-- existence of `terraform.tfvars.example` per environment. -/
  exampleExists : String → Bool
  /-- existence of `terraform.tfvars` per environment. -/
  tfvarsExists : String → Bool

/-- Observable behaviour of one provisioning run. -/
structure MainRun where
  prov : ProvRun
  rg : RGRun
  /-- the `storage_accounts` dictionary. -/
  storageAccounts : List (String × String)
  /-- commands issued by `create_storage_accounts`. -/
  storageCmds : List (List String)
  terraformSP : SPResult
  githubSP : SPResult
  /-- paths of all files written, in order. -/
  filesWritten : List String

/-- The happy-path body of `main` (lines 663–689), after argument parsing
and with the `which az` / `which jq` / `az account show` prerequisite
checks assumed to have passed (the provider-registration part of
`check_prerequisites` is modelled in full).  Runs the provisioning steps
in source order and records their effects; `github-actions-credentials.json`
is written exactly when the github service-principal result carries
`sp_output` (lines 684–689). -/
def mainRun (w : World) (project location : String)
    (environments : List String) : MainRun :=
  let prov := check_and_register_providers w.providerShow w.registerOk w.pollShow
  let rg := create_state_resource_group project location w.rgShowExit
  let storage := create_storage_accounts project rg.name location w.epochTime environments
  let tsp := create_service_principal project "terraform" w.subscription_id
    w.spLookup w.spCreated
  let gsp := create_service_principal project "github-actions" w.subscription_id
    w.spLookup w.spCreated
  { prov := prov, rg := rg, storageAccounts := storage.1,
    storageCmds := storage.2, terraformSP := tsp, githubSP := gsp,
    filesWritten :=
      generate_env_file_paths
        ++ generate_backend_configs_paths environments
        ++ generate_terraform_tfvars_paths w.exampleExists w.tfvarsExists environments
        ++ (if gsp.fields.any (fun kv => kv.1 == "sp_output") then
              ["github-actions-credentials.json"] else []) }

/-- A storage-command classifier: `az storage account create ...`. -/
def isStorageAccountCreate (cmd : List String) : Bool :=
  cmd.take 4 == ["az", "storage", "account", "create"]

/-- A storage-command classifier: `az storage container create ...`. -/
def isContainerCreate (cmd : List String) : Bool :=
  cmd.take 4 == ["az", "storage", "container", "create"]

/-- A concrete fresh-state world: every provider already `Registered`,
the resource group absent (`az group show` exits 3), no service principal
found by the lookup, fixed subscription data and clock, no tfvars example
files. -/
def scenarioWorld : World where
  providerShow := fun _ => some "Registered"
  registerOk := fun _ => true
  pollShow := fun _ _ => some "Registered"
  rgShowExit := 3
  spLookup := fun _ => ""
  spCreated := fun _ => ("cid-1", "sec-1", "raw-json")
  subscription_id := "sub-1"
  tenant_id := "ten-1"
  epochTime := 1717171717
  exampleExists := fun _ => false
  tfvarsExists := fun _ => false

/-! ## Helper lemmas -/

/-- The length of a string is the length of the underlying character list. -/
theorem length_eq_data_length (s : String) : s.length = s.data.length := by
  cases s
  rfl

/-- Length of a concatenation of strings. -/
theorem length_append_eq (s t : String) : (s ++ t).length = s.length + t.length := by
  rw [length_eq_data_length, length_eq_data_length, length_eq_data_length,
    String.data_append, List.length_append]

/-- The short project name keeps at most eight characters. -/
theorem shortProject_length_le (project : String) : (shortProject project).length ≤ 8 := by
  show (List.take 8 ((removeChar '_' (removeChar '-' project)).data)).length ≤ 8
  exact List.length_take_le _ _

/-- The timestamp suffix keeps at most six characters. -/
theorem timestampSuffix_length_le (t : Nat) : (timestampSuffix t).length ≤ 6 := by
  show (List.drop ((toString t).data.length - 6) ((toString t).data)).length ≤ 6
  rw [List.length_drop]
  omega

/-! ## Claim theorems -/

/-- C8: with `check=True` a non-zero exit fails the whole operation with
`sys.exit(1)` after reporting the captured standard error; with
`check=False` the completed process is returned for the caller to
inspect. -/
theorem run_command_check_semantics (command : List String) (r : Completed) :
    (r.returncode ≠ 0 →
      run_command command true r =
        .exited 1 ["Command failed: " ++ String.intercalate " " command,
                   "Error: " ++ r.stderr]) ∧
    run_command command false r = .ok r := by
  constructor
  · intro h
    simp [run_command, h]
  · simp [run_command]

theorem run_command_check_semantics_witness :
    (Completed.mk 2 "" "boom").returncode ≠ 0 ∧
    run_command ["az", "account", "show"] true (Completed.mk 2 "" "boom") =
      .exited 1 ["Command failed: az account show", "Error: boom"] := by
  refine ⟨by decide, ?_⟩
  have h := (run_command_check_semantics ["az", "account", "show"]
    (Completed.mk 2 "" "boom")).1 (by decide)
  simpa using h

/-- C7: when the `az group show` existence check succeeds (exit 0), no
creation command is issued and the returned name is the same as a run
where the group is absent (non-zero show exit): resource-group creation
is idempotent. -/
theorem rg_creation_idempotent (project location : String) (ec : Nat)
    (hec : ec ≠ 0) :
    (create_state_resource_group project location 0).createCmds = [] ∧
    (create_state_resource_group project location 0).name =
      (create_state_resource_group project location ec).name := by
  simp [create_state_resource_group, hec]

theorem rg_creation_idempotent_witness :
    (3 : Nat) ≠ 0 ∧
    (create_state_resource_group "acme" "East US" 0).createCmds = [] ∧
    (create_state_resource_group "acme" "East US" 0).name =
      (create_state_resource_group "acme" "East US" 3).name :=
  ⟨by decide, rg_creation_idempotent "acme" "East US" 3 (by decide)⟩

/-- C1 (amended): the storage-account name is the deterministic
concatenation `shortProject ++ "tf" ++ env ++ timestampSuffix` of the
three inputs, and when the environment label has at most eight
characters (which covers dev, staging, prod) its length is at most 24.
(Unconstrained environment labels can exceed 24, see the
counterexample.) -/
theorem storage_account_name_spec (project env : String) (t : Nat)
    (henv : env.length ≤ 8) :
    storageAccountName project env t =
      shortProject project ++ "tf" ++ env ++ timestampSuffix t ∧
    (storageAccountName project env t).length ≤ 24 := by
  refine ⟨rfl, ?_⟩
  have h1 := shortProject_length_le project
  have h2 := timestampSuffix_length_le t
  have h3 : ("tf" : String).length = 2 := rfl
  unfold storageAccountName
  rw [length_append_eq, length_append_eq, length_append_eq, h3]
  omega

theorem storage_account_name_too_long :
    24 < (storageAccountName "acme-platform" "staging02" 1717171717).length := by
  decide

theorem storage_account_name_spec_witness :
    ("dev" : String).length ≤ 8 ∧
    (storageAccountName "acme" "dev" 1717171717).length ≤ 24 :=
  ⟨by decide, (storage_account_name_spec "acme" "dev" 1717171717 (by decide)).2⟩

/-- C2 (amended): when the display-name lookup returns non-empty output,
`create_service_principal` issues no `create-for-rbac` call and no role
assignments, and returns the dict `{"app_id": <existing id>}` only — in
particular it carries no secret field.  (The return value carries no
separate "existing" marker; the absence of the `client_secret` key is
what signals an existing principal, see the counterexample.) -/
theorem sp_existing_skips_creation (project sp_type subscription_id : String)
    (spLookup : String → String) (spCreated : String → String × String × String)
    (h : pyStrip (spLookup (project ++ "-" ++ sp_type ++ "-sp")) ≠ "") :
    (create_service_principal project sp_type subscription_id spLookup
      spCreated).createCmds = [] ∧
    (create_service_principal project sp_type subscription_id spLookup
      spCreated).roleCmds = [] ∧
    (create_service_principal project sp_type subscription_id spLookup
      spCreated).fields =
      [("app_id", pyStrip (spLookup (project ++ "-" ++ sp_type ++ "-sp")))] := by
  simp [create_service_principal, h]

theorem sp_existing_marker_counterexample :
    pyStrip ((fun _ : String => "app-123") ("acme" ++ "-" ++ "terraform" ++ "-sp")) ≠ "" ∧
    (create_service_principal "acme" "terraform" "sub-1" (fun _ => "app-123")
      (fun _ => ("cid", "sec", "raw"))).createCmds = [] ∧
    ∀ kv ∈ (create_service_principal "acme" "terraform" "sub-1" (fun _ => "app-123")
      (fun _ => ("cid", "sec", "raw"))).fields, kv.1 ≠ "existing" := by
  decide

theorem sp_existing_skips_creation_witness :
    pyStrip ((fun _ : String => "app-123") ("acme" ++ "-" ++ "terraform" ++ "-sp")) ≠ "" ∧
    (create_service_principal "acme" "terraform" "sub-1" (fun _ => "app-123")
      (fun _ => ("cid", "sec", "raw"))).roleCmds = [] :=
  ⟨by decide,
   (sp_existing_skips_creation "acme" "terraform" "sub-1" (fun _ => "app-123")
     (fun _ => ("cid", "sec", "raw")) (by decide)).2.1⟩

/-- C3 (amended): the resource-group and storage-account create commands
carry the `Project=<project>` tag, but the blob-container create command
and the service-principal create command are issued with no `--tags`
argument at all (so neither carries a Project tag); the hypotheses only
rule out caller-supplied strings that spell `--tags` themselves. -/
theorem project_tag_coverage (project rg_name location env sname spname
    subid : String)
    (h1 : ("--tags" : String) ≠ sname) (h2 : ("--tags" : String) ≠ spname)
    (h3 : ("--tags" : String) ≠ "/subscriptions/" ++ subid) :
    ("Project=" ++ project) ∈ rgCreateCmd rg_name location project ∧
    ("Project=" ++ project) ∈ storageCreateCmd sname rg_name location env project ∧
    "--tags" ∉ containerCreateCmd sname ∧
    "--tags" ∉ spCreateCmd spname subid := by
  refine ⟨?_, ?_, ?_, ?_⟩
  · simp [rgCreateCmd]
  · simp [storageCreateCmd]
  · simp [containerCreateCmd, h1]
  · simp [spCreateCmd, h2, h3]

theorem project_tag_counterexample :
    "Project=acme" ∉ containerCreateCmd (storageAccountName "acme" "dev" 1717171717) ∧
    "Project=acme" ∉ spCreateCmd "acme-terraform-sp" "sub-1" := by
  decide

theorem project_tag_coverage_witness :
    ("--tags" : String) ≠ "acmetfdev171717" ∧
    ("Project=" ++ "acme") ∈ rgCreateCmd "acme-terraform-state-rg" "East US" "acme" ∧
    "--tags" ∉ containerCreateCmd "acmetfdev171717" :=
  ⟨by decide,
   (project_tag_coverage "acme" "acme-terraform-state-rg" "East US" "dev"
     "acmetfdev171717" "acme-terraform-sp" "sub-1" (by decide) (by decide)
     (by decide)).1,
   (project_tag_coverage "acme" "acme-terraform-state-rg" "East US" "dev"
     "acmetfdev171717" "acme-terraform-sp" "sub-1" (by decide) (by decide)
     (by decide)).2.2.1⟩

/-- The polling loop never executes more than 30 bodies when started at a
counter `k ≤ 30`. -/
theorem pollIter_le (f : Nat → Bool) :
    ∀ fuel k, k ≤ 30 → (pollIter f fuel k).1 ≤ 30 := by
  intro fuel
  induction fuel with
  | zero => intro k hk; simpa [pollIter] using hk
  | succ n ih =>
    intro k hk
    by_cases hg : 10 * k < 300
    · by_cases hr : f k
      · simp only [pollIter, if_pos hg, if_pos hr]
        omega
      · have hk' : k + 1 ≤ 30 := by omega
        simpa [pollIter, hg, hr] using ih (k + 1) hk'
    · simpa [pollIter, hg] using hk

/-- The polling loop as started by the source executes at most 30 bodies. -/
theorem pollLoop_le (f : Nat → Bool) : (pollLoop f).1 ≤ 30 :=
  pollIter_le f 31 0 (by omega)

/-- A namespace whose state query fails is classified as unregistered. -/
theorem mem_classifyUnregistered_of_none {showState : ShowOracle} {p : String}
    (hp : p ∈ requiredProviders) (hfail : showState p = none) :
    p ∈ classifyUnregistered showState := by
  refine List.mem_filter.2 ⟨hp, ?_⟩
  simp [hfail]

/-- When every required namespace reports `Registered`, nothing is
classified as unregistered. -/
theorem classifyUnregistered_eq_nil {showState : ShowOracle}
    (h : ∀ p ∈ requiredProviders, showState p = some "Registered") :
    classifyUnregistered showState = [] := by
  refine List.filter_eq_nil_iff.2 ?_
  intro p hp
  rw [h p hp]
  decide

/-- A list with a member is not empty. -/
theorem isEmpty_false_of_mem {α : Type} {l : List α} {p : α} (h : p ∈ l) :
    l.isEmpty = false := by
  cases l
  · simp at h
  · rfl

/-- When every register call succeeds, the register loop issues one
register command per pending provider, in order, and reports success. -/
theorem registerPhase_all_ok (registerOk : String → Bool) :
    ∀ l, (∀ q ∈ l, registerOk q = true) →
      registerPhase registerOk l = (l.map providerRegisterCmd, true) := by
  intro l
  induction l with
  | nil => intro _; rfl
  | cons p rest ih =>
    intro h
    have hp : registerOk p = true := h p (List.mem_cons_self p rest)
    have hrest := ih (fun q hq => h q (List.mem_cons_of_mem p hq))
    simp [registerPhase, hp, hrest]

/-- A failing register call makes the register loop report failure. -/
theorem registerPhase_fails (registerOk : String → Bool) :
    ∀ l, (∃ p ∈ l, registerOk p = false) →
      (registerPhase registerOk l).2 = false := by
  intro l
  induction l with
  | nil =>
    rintro ⟨p, hp, -⟩
    simp at hp
  | cons q rest ih =>
    rintro ⟨p, hp, hfail⟩
    by_cases hq : registerOk q
    · have hpr : p ∈ rest := by
        rcases List.mem_cons.1 hp with h1 | h1
        · subst h1; rw [hq] at hfail; cases hfail
        · exact h1
      simp [registerPhase, hq, ih ⟨p, hpr, hfail⟩]
    · simp [registerPhase, hq]

/-- C4: for every provider behaviour the polling loop executes at most
`300 / 10 = 30` bodies, and when the budget expires the function prints
the timeout warning and returns normally (the outcome is `timedOut`, not
a `sys.exit`). -/
theorem provider_poll_budget (showState : ShowOracle)
    (registerOk : String → Bool) (pollState : Nat → ShowOracle) :
    (check_and_register_providers showState registerOk pollState).pollIterations ≤ 30 ∧
    ((check_and_register_providers showState registerOk pollState).outcome =
        .timedOut →
      timeoutWarning ∈
        (check_and_register_providers showState registerOk pollState).warnings ∧
      ∀ c, (check_and_register_providers showState registerOk pollState).outcome ≠
        .fatalExit c) := by
  simp only [check_and_register_providers]
  split
  · refine ⟨Nat.zero_le _, ?_⟩
    intro h
    simp at h
  · split
    · split
      · refine ⟨pollLoop_le _, ?_⟩
        intro h
        simp at h
      · refine ⟨pollLoop_le _, fun _ => ⟨?_, ?_⟩⟩
        · simp
        · intro c
          simp
    · refine ⟨Nat.zero_le _, ?_⟩
      intro h
      simp at h

theorem provider_poll_budget_witness :
    (check_and_register_providers (fun _ => none) (fun _ => true)
      (fun _ _ => none)).pollIterations ≤ 30 ∧
    timeoutWarning ∈ (check_and_register_providers (fun _ => none) (fun _ => true)
      (fun _ _ => none)).warnings :=
  ⟨(provider_poll_budget (fun _ => none) (fun _ => true) (fun _ _ => none)).1,
   ((provider_poll_budget (fun _ => none) (fun _ => true) (fun _ _ => none)).2
     (by decide)).1⟩

/-- C6: when every required namespace's state query succeeds and reports
`Registered`, no register command is issued, the polling loop executes
zero bodies (so no sleep), and the function returns immediately through
the "already registered" branch. -/
theorem providers_already_registered_noop (showState : ShowOracle)
    (registerOk : String → Bool) (pollState : Nat → ShowOracle)
    (h : ∀ p ∈ requiredProviders, showState p = some "Registered") :
    (check_and_register_providers showState registerOk pollState).registerCmds = [] ∧
    (check_and_register_providers showState registerOk pollState).pollIterations = 0 ∧
    (check_and_register_providers showState registerOk pollState).outcome =
      .allAlreadyRegistered := by
  have hnil := classifyUnregistered_eq_nil h
  simp [check_and_register_providers, hnil]

theorem providers_already_registered_noop_witness :
    (∀ p ∈ requiredProviders,
      (fun _ : String => some "Registered") p = some "Registered") ∧
    (check_and_register_providers (fun _ => some "Registered") (fun _ => true)
      (fun _ _ => some "Registered")).registerCmds = [] :=
  ⟨fun _ _ => rfl,
   (providers_already_registered_noop (fun _ => some "Registered") (fun _ => true)
     (fun _ _ => some "Registered") (fun _ _ => rfl)).1⟩

/-- When something needs registration and all register calls succeed,
`check_and_register_providers` issues exactly the register-loop commands
and finishes through one of the two polling exits. -/
theorem check_providers_register_ok (showState : ShowOracle)
    (registerOk : String → Bool) (pollState : Nat → ShowOracle)
    (hne : (classifyUnregistered showState).isEmpty = false)
    (hok : (registerPhase registerOk (classifyUnregistered showState)).2 = true) :
    (check_and_register_providers showState registerOk pollState).registerCmds =
      (registerPhase registerOk (classifyUnregistered showState)).1 ∧
    ((check_and_register_providers showState registerOk pollState).outcome =
        .allRegistered ∨
     (check_and_register_providers showState registerOk pollState).outcome =
        .timedOut) := by
  by_cases hpoll :
      (pollLoop (allRegisteredAt pollState (classifyUnregistered showState))).2 = true
  · simp [check_and_register_providers, hne, hok, hpoll]
  · simp [check_and_register_providers, hne, hok, hpoll]

/-- C5: a required namespace whose state query fails is classified as
unregistered and — when the earlier register calls do not abort the run —
receives its own register call; the query failure itself never produces a
`sys.exit`. -/
theorem query_failure_still_registers (showState : ShowOracle)
    (registerOk : String → Bool) (pollState : Nat → ShowOracle) (p : String)
    (hp : p ∈ requiredProviders) (hfail : showState p = none)
    (hok : ∀ q, registerOk q = true) :
    p ∈ classifyUnregistered showState ∧
    providerRegisterCmd p ∈
      (check_and_register_providers showState registerOk pollState).registerCmds ∧
    ∀ c, (check_and_register_providers showState registerOk pollState).outcome ≠
      .fatalExit c := by
  have hmem := mem_classifyUnregistered_of_none hp hfail
  have hne := isEmpty_false_of_mem hmem
  have hreg := registerPhase_all_ok registerOk (classifyUnregistered showState)
    (fun q _ => hok q)
  have hchar := check_providers_register_ok showState registerOk pollState hne
    (by rw [hreg])
  refine ⟨hmem, ?_, ?_⟩
  · rw [hchar.1, hreg]
    exact List.mem_map_of_mem providerRegisterCmd hmem
  · intro c
    rcases hchar.2 with h | h <;> rw [h] <;> simp

theorem query_failure_still_registers_witness :
    "Microsoft.Network" ∈ requiredProviders ∧
    providerRegisterCmd "Microsoft.Network" ∈
      (check_and_register_providers (fun _ => none) (fun _ => true)
        (fun _ _ => some "Registered")).registerCmds :=
  ⟨by decide,
   (query_failure_still_registers (fun _ => none) (fun _ => true)
     (fun _ _ => some "Registered") "Microsoft.Network" (by decide) rfl
     (fun _ => rfl)).2.1⟩

/-- C10: when some register call issued for an unregistered namespace
exits non-zero, the whole run terminates with `sys.exit(1)` and no
polling body is ever executed. -/
theorem register_failure_fatal (showState : ShowOracle)
    (registerOk : String → Bool) (pollState : Nat → ShowOracle) (p : String)
    (hp : p ∈ classifyUnregistered showState) (hfail : registerOk p = false) :
    (check_and_register_providers showState registerOk pollState).outcome =
      .fatalExit 1 ∧
    (check_and_register_providers showState registerOk pollState).pollIterations
      = 0 := by
  have hne := isEmpty_false_of_mem hp
  have hbad := registerPhase_fails registerOk (classifyUnregistered showState)
    ⟨p, hp, hfail⟩
  simp [check_and_register_providers, hne, hbad]

theorem register_failure_fatal_witness :
    "Microsoft.Storage" ∈ classifyUnregistered (fun _ => none) ∧
    (check_and_register_providers (fun _ => none) (fun _ => false)
      (fun _ _ => some "Registered")).outcome = .fatalExit 1 :=
  ⟨by decide,
   (register_failure_fatal (fun _ => none) (fun _ => false)
     (fun _ _ => some "Registered") "Microsoft.Storage" (by decide) rfl).1⟩

/-- In the per-environment command pair, exactly one command is a storage
account create and exactly one is a container create, whatever the
interpolated names are. -/
theorem filter_storage_cmds (sn rn loc env proj : String) :
    (List.filter isStorageAccountCreate
      [storageCreateCmd sn rn loc env proj, containerCreateCmd sn]).length = 1 ∧
    (List.filter isContainerCreate
      [storageCreateCmd sn rn loc env proj, containerCreateCmd sn]).length = 1 := by
  constructor <;> rfl

/-- Whatever the example/tfvars existence flags, the tfvars-generation
step for ["dev"] writes no file named `x` when `x` is not the dev tfvars
path. -/
theorem count_in_tfvars_paths (x : String) (ex tf : String → Bool)
    (hx : ("terraform/environments/dev/terraform.tfvars" : String) ≠ x) :
    List.count x (generate_terraform_tfvars_paths ex tf ["dev"]) = 0 := by
  have hx' := Ne.symm hx
  cases hex : ex "dev" <;> cases htf : tf "dev" <;>
    simp [generate_terraform_tfvars_paths, hex, htf, List.count_cons, hx, hx']

/-- C9: starting from a fresh state (all providers registered, no resource
group, no service principals), a run for project "acme" and environments
["dev"] issues zero register commands, one resource-group creation, one
storage-account creation, one container creation, and two
service-principal creations with display names `acme-terraform-sp` and
`acme-github-actions-sp`, and writes exactly one `.env` file and exactly
one backend configuration for dev. -/
theorem end_to_end_fresh_run (w : World)
    (hprov : ∀ p ∈ requiredProviders, w.providerShow p = some "Registered")
    (hrg : w.rgShowExit ≠ 0)
    (hsp : ∀ n, pyStrip (w.spLookup n) = "") :
    (mainRun w "acme" "East US" ["dev"]).prov.registerCmds = [] ∧
    (mainRun w "acme" "East US" ["dev"]).rg.createCmds.length = 1 ∧
    ((mainRun w "acme" "East US" ["dev"]).storageCmds.filter
      isStorageAccountCreate).length = 1 ∧
    ((mainRun w "acme" "East US" ["dev"]).storageCmds.filter
      isContainerCreate).length = 1 ∧
    (mainRun w "acme" "East US" ["dev"]).terraformSP.createCmds =
      [spCreateCmd "acme-terraform-sp" w.subscription_id] ∧
    (mainRun w "acme" "East US" ["dev"]).githubSP.createCmds =
      [spCreateCmd "acme-github-actions-sp" w.subscription_id] ∧
    (mainRun w "acme" "East US" ["dev"]).filesWritten.count ".env" = 1 ∧
    (mainRun w "acme" "East US" ["dev"]).filesWritten.count
      "terraform/environments/dev/backend.conf" = 1 := by
  have hnil := classifyUnregistered_eq_nil hprov
  refine ⟨?_, ?_, ?_, ?_, ?_, ?_, ?_, ?_⟩
  · show (check_and_register_providers w.providerShow w.registerOk
      w.pollShow).registerCmds = []
    simp [check_and_register_providers, hnil]
  · show (create_state_resource_group "acme" "East US"
      w.rgShowExit).createCmds.length = 1
    simp [create_state_resource_group, hrg]
  · exact (filter_storage_cmds _ _ _ _ _).1
  · exact (filter_storage_cmds _ _ _ _ _).2
  · show (create_service_principal "acme" "terraform" w.subscription_id
      w.spLookup w.spCreated).createCmds =
      [spCreateCmd "acme-terraform-sp" w.subscription_id]
    simp [create_service_principal, hsp]
  · show (create_service_principal "acme" "github-actions" w.subscription_id
      w.spLookup w.spCreated).createCmds =
      [spCreateCmd "acme-github-actions-sp" w.subscription_id]
    simp [create_service_principal, hsp]
  · have ht := count_in_tfvars_paths ".env" w.exampleExists w.tfvarsExists
      (by decide)
    simp [mainRun, create_service_principal, hsp, generate_env_file_paths,
      generate_backend_configs_paths, List.count_cons, List.count_append,
      List.count_nil, ht]
  · have ht := count_in_tfvars_paths "terraform/environments/dev/backend.conf"
      w.exampleExists w.tfvarsExists (by decide)
    simp [mainRun, create_service_principal, hsp, generate_env_file_paths,
      generate_backend_configs_paths, List.count_cons, List.count_append,
      List.count_nil, ht]

theorem end_to_end_fresh_run_witness :
    scenarioWorld.rgShowExit ≠ 0 ∧
    (mainRun scenarioWorld "acme" "East US" ["dev"]).rg.createCmds.length = 1 ∧
    (mainRun scenarioWorld "acme" "East US" ["dev"]).filesWritten.count ".env"
      = 1 :=
  ⟨by decide,
   (end_to_end_fresh_run scenarioWorld (fun _ _ => rfl) (by decide)
     (fun _ => rfl)).2.1,
   (end_to_end_fresh_run scenarioWorld (fun _ _ => rfl) (by decide)
     (fun _ => rfl)).2.2.2.2.2.2.1⟩
